import Mathlib

/-!
Shallow embedding of the authentication / session-lifecycle core of the
`todos` service (files `src/auth/auth.py`, `src/routes/users.py`,
`src/db/redis.py`, `src/db/models.py`), together with theorems settling the
specification claims about it.

Modelling conventions
- Time is `Int`, Unix seconds.  `datetime.now()` at a call site becomes an
  explicit `now` argument; `timedelta` deltas become second counts.
- A JWT is modelled by `Jwt`: either a payload correctly signed with the
  process key (`Jwt.signed`), or anything whose signature check fails
  (`Jwt.badSig`, on which `jose.jwt.decode` raises `JWTError`).  A payload is
  the claim set the service ever reads: `sub`, `email`, `exp`, `refresh`,
  `jti`, each optional exactly as `payload.get(...)` can return `None`.
- The Redis blocklist is a list of `(jti, expiry-instant)` pairs; a key is
  present while `now < expiry`, which is `SET ... EX ttl` key-existence
  semantics.  The source's insert call passes `value=None`, which redis-py
  (3.0 and later) rejects client-side with `DataError` before anything is
  written, so the insert is modelled as always raising; a separate pure cons
  describes the entry the route intends to write, for hypothetical states.
- `fastapi.HTTPException` is modelled by its externally observable data:
  status code and the `error` field of the `detail` dict.  An exception that
  escapes every handler (e.g. `redis` raising on a `None` key, or the
  re-raised decode failure) surfaces as FastAPI's generic 500 response.
- `passlib` hashing is an opaque parameter `pwverify : String → String → Bool`
  (`pwd_context.verify`); nothing about it is assumed.
-/

/-- External face of a `fastapi.HTTPException`: status code and the `error`
field of its `detail`.  (The `resolution` field and headers carry no extra
distinguishing information beyond `error` in this code base.) -/
structure HTTPException where
  status_code : Nat
  error : String
deriving DecidableEq, Repr

/-- Constant `CREDENTIALS_EXCEPTION` of `src/auth/auth.py` (403). -/
def CREDENTIALS_EXCEPTION : HTTPException :=
  { status_code := 403, error := "Could not validate credentials" }

/-- Constant `TOKEN_IN_BLOCKLIST_EXCEPTION` of `src/auth/auth.py` (403). -/
def TOKEN_IN_BLOCKLIST_EXCEPTION : HTTPException :=
  { status_code := 403
    error := "Could not validate credentials: Your token is invalid or has been revoked" }

/-- Constant `INVALID_TOKEN_EXCEPTION` of `src/auth/auth.py` (401). -/
def INVALID_TOKEN_EXCEPTION : HTTPException :=
  { status_code := 401
    error := "Could not validate credentials: Your token is invalid or expired" }

/-- The 401 raised by `get_access_token` / `get_refresh_token` in
`src/routes/users.py` when `authenticate_user` returns `None`. -/
def INCORRECT_CREDENTIALS_EXCEPTION : HTTPException :=
  { status_code := 401, error := "Incorrect username or password" }

/-- FastAPI's generic response when an exception escapes all handlers
(e.g. `redis-py` raising `DataError` on a `None` key). -/
def INTERNAL_SERVER_ERROR : HTTPException :=
  { status_code := 500, error := "Internal Server Error" }

/-- The 500 raised inside `verify_user_account` / `reset_password` when the
`try` block around token decoding catches an exception. -/
def DECODING_ERROR_EXCEPTION : HTTPException :=
  { status_code := 500
    error := "Sorry, an unexpected error has occurred while decoding verification token..." }

/-- A `users` row (`src/db/models.py`): the columns the session core reads.
(`id`, timestamps and the todo relationship play no role in the claims.) -/
structure User where
  username : String
  email : String
  hashed_password : String
deriving DecidableEq, Repr

/-- The claim set of a session JWT, as the service reads it with
`payload.get`: each field is `none` when the key is absent. -/
structure Payload where
  sub : Option String
  email : Option String
  exp : Option Int
  refresh : Option Bool
  jti : Option String
deriving DecidableEq, Repr

/-- A candidate bearer token: either correctly signed under `SECRET_KEY`
(carrying its payload) or one on which `jwt.decode` raises `JWTError`
(bad signature, tampering, not a JWT at all). -/
inductive Jwt where
  | signed (payload : Payload)
  | badSig
deriving DecidableEq, Repr

/-- Constant `ACCESS_TOKEN_DEFAULT_LIFESPAN_MINUTES = 60` (`src/routes/users.py`). -/
def ACCESS_TOKEN_DEFAULT_LIFESPAN_MINUTES : Int := 60

/-- Constant `REFRESH_TOKEN_DEFAULT_LIFESPAN_HOURS = 168` (`src/routes/users.py`). -/
def REFRESH_TOKEN_DEFAULT_LIFESPAN_HOURS : Int := 168

/-- Constant `ACCESS_TOKEN_JTI_EXPIRY = 3600` (`src/db/redis.py`), the `EX` ttl in
seconds passed to Redis on revocation. -/
def ACCESS_TOKEN_JTI_EXPIRY : Int := 3600

/-- The Redis blocklist state: pairs `(jti, expiry-instant)`.  A key exists
at `now` while some pair for it has `now < expiry`. -/
abbrev Blocklist : Type := List (String × Int)

/-- Function `add_jti_to_blocklist` (`src/db/redis.py`): attempts
`SET name=jti value=None EX 3600`.  redis-py (3.0 and later) rejects `None`
as a value client-side, raising `DataError` before anything reaches the
server, so the call always raises and never writes an entry; the uncaught
exception surfaces as the generic 500 response. -/
def add_jti_to_blocklist (bl : Blocklist) (now : Int) (jti : String) :
    Except HTTPException Blocklist :=
  Except.error INTERNAL_SERVER_ERROR

/-- A registry state with one live entry for `jti` under the 3600-second
ttl on top of `bl`: the entry the logout route intends — and, because of the
`DataError` above, fails — to write.  Used only to quantify over
hypothetical registry states; no embedded operation produces it. -/
def blocklist_with_entry (bl : Blocklist) (now : Int) (jti : String) : Blocklist :=
  ((jti, now + ACCESS_TOKEN_JTI_EXPIRY) :: bl : List (String × Int))

/-- Function `token_in_blocklist` (`src/db/redis.py`): `GET jti` is non-nil. -/
def token_in_blocklist (bl : Blocklist) (now : Int) (jti : String) : Bool :=
  (bl : List (String × Int)).any (fun e => e.1 == jti && now < e.2)

/-- Function `create_token` (`src/auth/auth.py`): copies the route-supplied claims
(`sub`, and for access tokens issued at login also `email`), then sets
`exp = now + expires_delta`, the `refresh` kind flag, and a fresh `jti`
(a UUID4, modelled as an explicit argument). -/
def create_token (sub : String) (email : Option String) (now : Int)
    (expires_delta : Int) (is_refresh_token : Bool) (jti : String) : Jwt :=
  Jwt.signed
    { sub := some sub, email := email, exp := some (now + expires_delta)
      refresh := some is_refresh_token, jti := some jti }

/-- The payload-shape-and-expiry test of `validate_token`
(`src/auth/auth.py` lines 105-111): `sub`, `exp` or `refresh` missing, kind
flag different from the expected one, or `fromtimestamp(exp) < now`. -/
def payload_rejected (p : Payload) (is_refresh_token : Bool) (now : Int) : Bool :=
  p.sub.isNone || p.exp.isNone || p.refresh.isNone
    || p.refresh != some is_refresh_token
    || (match p.exp with
        | some e => decide (e < now)
        | none => false)

/-- Function `validate_token` (`src/auth/auth.py`): decode (signature check), the
shape/kind/expiry test, then the blocklist lookup on the embedded `jti` —
performed for BOTH kinds of token.  A payload with no `jti` would make
`redis` raise `DataError` on the `None` key, escaping as a 500 (no token the
service issues lacks a `jti`). -/
def validate_token (bl : Blocklist) (now : Int) (token : Jwt)
    (is_refresh_token : Bool) : Except HTTPException Payload :=
  match token with
  | Jwt.badSig => Except.error INVALID_TOKEN_EXCEPTION
  | Jwt.signed p =>
    if payload_rejected p is_refresh_token now then
      Except.error INVALID_TOKEN_EXCEPTION
    else
      match p.jti with
      | some j =>
        if token_in_blocklist bl now j then
          Except.error TOKEN_IN_BLOCKLIST_EXCEPTION
        else
          Except.ok p
      | none => Except.error INTERNAL_SERVER_ERROR

/-- Function `get_user` (`src/auth/auth.py`): first row with the given username. -/
def get_user (db : List User) (username : String) : Option User :=
  db.find? (fun u => u.username == username)

/-- Function `get_user_by_email` (`src/auth/auth.py`): first row with the email. -/
def get_user_by_email (db : List User) (email : String) : Option User :=
  db.find? (fun u => u.email == email)

/-- Function `authenticate_user` (`src/auth/auth.py`): look up by username, then
`verify_password`; `None` on a missing user AND on a wrong password. -/
def authenticate_user (pwverify : String → String → Bool) (db : List User)
    (username password : String) : Option User :=
  match get_user db username with
  | some user => if pwverify password user.hashed_password then some user else none
  | none => none

/-- The closure produced by `get_current_user_factory` (`src/auth/auth.py`):
`validate_token`, re-read `sub`, look the user up, `CREDENTIALS_EXCEPTION`
when absent.  (After a successful `validate_token` the `sub` claim cannot be
`none`; on that dead branch `get_user(db, None)` matches no row, so the same
`CREDENTIALS_EXCEPTION` results.) -/
def get_current_user (db : List User) (bl : Blocklist) (now : Int)
    (token : Jwt) (is_refresh_token : Bool) : Except HTTPException User :=
  match validate_token bl now token is_refresh_token with
  | Except.error e => Except.error e
  | Except.ok p =>
    match p.sub with
    | some username =>
      match get_user db username with
      | some user => Except.ok user
      | none => Except.error CREDENTIALS_EXCEPTION
    | none => Except.error CREDENTIALS_EXCEPTION

/-- Route `get_access_token` (`src/routes/users.py`): authenticate, then
issue an access token with claims `{sub, email}` and a 60-minute ttl. -/
def get_access_token (pwverify : String → String → Bool) (db : List User)
    (username password : String) (now : Int) (jti : String) :
    Except HTTPException Jwt :=
  match authenticate_user pwverify db username password with
  | none => Except.error INCORRECT_CREDENTIALS_EXCEPTION
  | some user =>
    Except.ok (create_token user.username (some user.email) now
      (ACCESS_TOKEN_DEFAULT_LIFESPAN_MINUTES * 60) false jti)

/-- Route `get_refresh_token` (`src/routes/users.py`): authenticate, then
issue a refresh token with claim `{sub}` and a 168-hour ttl. -/
def get_refresh_token (pwverify : String → String → Bool) (db : List User)
    (username password : String) (now : Int) (jti : String) :
    Except HTTPException Jwt :=
  match authenticate_user pwverify db username password with
  | none => Except.error INCORRECT_CREDENTIALS_EXCEPTION
  | some user =>
    Except.ok (create_token user.username none now
      (REFRESH_TOKEN_DEFAULT_LIFESPAN_HOURS * 3600) true jti)

/-- Route `get_refresh_token_from_access_token` (`src/routes/users.py`),
the Refresh operation: resolve the caller from the presented token with
`is_refresh_token=True`, then issue a fresh access token for that username.
The handler performs no blocklist operation; the returned `Blocklist` is the
registry state after the request. -/
def refresh_access_token (db : List User) (bl : Blocklist) (now : Int)
    (token : Jwt) (newJti : String) :
    Except HTTPException (Jwt × Blocklist) :=
  match get_current_user db bl now token true with
  | Except.error e => Except.error e
  | Except.ok user =>
    Except.ok
      (create_token user.username none now
        (ACCESS_TOKEN_DEFAULT_LIFESPAN_MINUTES * 60) false newJti, bl)

/-- Route `revoke_token` (`src/routes/users.py`), the Logout operation:
`validate_token` with the default `is_refresh_token=False`, then
`add_jti_to_blocklist(jti)` — which always raises `DataError` on its `None`
value (see above), so a logout whose token validates answers 500 and leaves
the registry unchanged.  (A payload with `jti = None` would equally make
`redis` raise, on the `None` key.)  The returned `Blocklist` would be the
registry state after the request; no branch of the program produces one. -/
def revoke_token (bl : Blocklist) (now : Int) (token : Jwt) :
    Except HTTPException Blocklist :=
  match validate_token bl now token false with
  | Except.error e => Except.error e
  | Except.ok p =>
    match p.jti with
    | some j => add_jti_to_blocklist bl now j
    | none => Except.error INTERNAL_SERVER_ERROR

/-- The payload of an out-of-band link token as the routes read it:
the `email` key of the signed dict, when present. -/
structure LinkPayload where
  email : Option String
deriving DecidableEq, Repr

/-- An out-of-band (itsdangerous) link token: either a payload correctly
signed under the `email-configuration` salt, or anything on which
`serializer.loads` raises (tampered, malformed). -/
inductive LinkToken where
  | signedLink (data : LinkPayload)
  | badLink
deriving DecidableEq, Repr

/-- Function `decode_url_safe_token` (`src/auth/auth.py`): returns the payload, or
`None` when `serializer.loads` raises (the exception is caught inside). -/
def decode_url_safe_token (token : LinkToken) : Option LinkPayload :=
  match token with
  | LinkToken.signedLink data => some data
  | LinkToken.badLink => none

/-- Route `verify_user_account` (`src/routes/users.py`), the VerifyEmail
operation.  When `decode_url_safe_token` returns `None`, the next line
`token_data.get("email")` raises `AttributeError` on `None`, which the
surrounding `except Exception` turns into the 500 `DECODING_ERROR_EXCEPTION`;
the 404 branches are reached only with a decodable token.  On success the
route answers 200 "User verified successfully!" (the `is_verified` attribute
it assigns is not a column of the `users` model). -/
def verify_user_account (db : List User) (token : LinkToken) :
    Except HTTPException String :=
  match decode_url_safe_token token with
  | none => Except.error DECODING_ERROR_EXCEPTION
  | some data =>
    match data.email with
    | none => Except.error { status_code := 404, error := "Email not found" }
    | some email =>
      match get_user_by_email db email with
      | none => Except.error { status_code := 404, error := "User not found" }
      | some _ => Except.ok ("User verified successfully!")

/-- Route `send_reset_password_link` (`src/routes/users.py`), the
RequestPasswordReset operation: 404 when no user has the email, otherwise
queue the mail and answer 200. -/
def send_reset_password_link (db : List User) (email : String) :
    Except HTTPException String :=
  match get_user_by_email db email with
  | none =>
    Except.error
      { status_code := 404
        error := "User for email " ++ email ++ " does not exist." }
  | some _ => Except.ok ("Please check the provided email to reset your password")

/-! ### Helper lemmas -/

/-- Evaluation of `validate_token` on a signed token all of whose claims are
present and whose kind flag matches the expected kind: only the expiry test
and the blocklist lookup remain. -/
theorem validate_token_full_payload (bl : Blocklist) (now : Int) (s : String)
    (em : Option String) (e : Int) (k : Bool) (j : String) :
    validate_token bl now
        (Jwt.signed { sub := some s, email := em, exp := some e
                      refresh := some k, jti := some j }) k
      = (if e < now then Except.error INVALID_TOKEN_EXCEPTION
         else if token_in_blocklist bl now j then
           Except.error TOKEN_IN_BLOCKLIST_EXCEPTION
         else Except.ok { sub := some s, email := em, exp := some e
                          refresh := some k, jti := some j }) := by
  unfold validate_token payload_rejected
  by_cases he : e < now <;> simp [he]

/-- Evaluation of `get_current_user` on such a token: expiry test, blocklist
lookup, then the user-table lookup on the embedded subject. -/
theorem get_current_user_full_payload (db : List User) (bl : Blocklist)
    (now : Int) (s : String) (em : Option String) (e : Int) (k : Bool)
    (j : String) :
    get_current_user db bl now
        (Jwt.signed { sub := some s, email := em, exp := some e
                      refresh := some k, jti := some j }) k
      = (if e < now then Except.error INVALID_TOKEN_EXCEPTION
         else if token_in_blocklist bl now j then
           Except.error TOKEN_IN_BLOCKLIST_EXCEPTION
         else match get_user db s with
              | some user => Except.ok user
              | none => Except.error CREDENTIALS_EXCEPTION) := by
  unfold get_current_user
  rw [validate_token_full_payload]
  by_cases he : e < now <;> by_cases hb : token_in_blocklist bl now j <;>
    simp [he, hb]

/-! ### Claims -/

/-- C1: for an access token issued by the system (signed payload carrying the
subject, an `exp` 60 minutes after issuance, kind flag `access`, and a fresh
`jti`), given that the subject's account still exists, identity resolution
with expected kind `access` succeeds iff the expiry instant has not passed
and the `jti` is not in the Revocation Registry; and any successful
resolution returns exactly the account whose username was embedded as the
subject.  (The signature requirement is the `Jwt.signed` constructor: a
token failing the signature check is `Jwt.badSig` and is rejected.) -/
theorem access_token_resolution_iff (db : List User) (bl : Blocklist)
    (now issuedAt : Int) (username jti : String) (email : Option String)
    (u : User) (haccount : get_user db username = some u) :
    (get_current_user db bl now
        (create_token username email issuedAt
          (ACCESS_TOKEN_DEFAULT_LIFESPAN_MINUTES * 60) false jti) false
      = Except.ok u
      ↔ (¬ issuedAt + ACCESS_TOKEN_DEFAULT_LIFESPAN_MINUTES * 60 < now
          ∧ token_in_blocklist bl now jti = false))
    ∧ (∀ u2 : User,
        get_current_user db bl now
          (create_token username email issuedAt
            (ACCESS_TOKEN_DEFAULT_LIFESPAN_MINUTES * 60) false jti) false
        = Except.ok u2 → u2 = u) := by
  unfold create_token
  rw [get_current_user_full_payload]
  constructor
  · by_cases he : issuedAt + ACCESS_TOKEN_DEFAULT_LIFESPAN_MINUTES * 60 < now <;>
      by_cases hb : token_in_blocklist bl now jti <;>
      simp [he, hb, haccount]
  · intro u2
    by_cases he : issuedAt + ACCESS_TOKEN_DEFAULT_LIFESPAN_MINUTES * 60 < now <;>
      by_cases hb : token_in_blocklist bl now jti <;>
      simp [he, hb, haccount]
    intro h
    exact h.symm

/-- A concrete account used by the witnesses below. -/
def aliceUser : User :=
  { username := "alice", email := "alice@x.com", hashed_password := "h" }

/-- Witness for C1 at a concrete state: one account, empty registry, a live
token resolves to that account. -/
theorem access_token_resolution_iff_witness :
    get_user [aliceUser] ("alice") = some aliceUser
    ∧ ((get_current_user [aliceUser] [] 100
          (create_token ("alice") (some ("alice@x.com")) 0
            (ACCESS_TOKEN_DEFAULT_LIFESPAN_MINUTES * 60) false ("jti-1")) false
        = Except.ok aliceUser
        ↔ (¬ (0 : Int) + ACCESS_TOKEN_DEFAULT_LIFESPAN_MINUTES * 60 < 100
            ∧ token_in_blocklist [] 100 "jti-1" = false))
    ∧ (∀ u2 : User,
        get_current_user [aliceUser] [] 100
          (create_token ("alice") (some ("alice@x.com")) 0
            (ACCESS_TOKEN_DEFAULT_LIFESPAN_MINUTES * 60) false ("jti-1")) false
        = Except.ok u2
        → u2 = aliceUser)) := by
  refine ⟨by decide, ?_⟩
  exact access_token_resolution_iff [aliceUser] [] 100 0 ("alice") ("jti-1")
    (some ("alice@x.com")) aliceUser (by decide)

/-- C2: the claim asserts the Revocation Registry is never consulted for
renewal tokens, so the outcome of identity resolution with expected kind
`renewal` would be the same for every registry state.  Counterexample: the
same renewal token resolves successfully against an empty registry but is
rejected when its `jti` is a live registry entry — `validate_token` performs
the blocklist lookup for both token kinds. -/
theorem renewal_registry_counterexample :
    get_current_user [aliceUser] [(("j"), 200)] 100
        (create_token ("alice") none 0
          (REFRESH_TOKEN_DEFAULT_LIFESPAN_HOURS * 3600) true ("j")) true
      = Except.error TOKEN_IN_BLOCKLIST_EXCEPTION
    ∧ get_current_user [aliceUser] [] 100
        (create_token ("alice") none 0
          (REFRESH_TOKEN_DEFAULT_LIFESPAN_HOURS * 3600) true ("j")) true
      = Except.ok aliceUser
    ∧ (Except.error TOKEN_IN_BLOCKLIST_EXCEPTION
        ≠ (Except.ok aliceUser : Except HTTPException User)) := by
  refine ⟨rfl, rfl, fun h => Except.noConfusion h⟩

/-- C2 amended: `validate_token` consults the Revocation Registry for renewal
tokens exactly as for access tokens, so the outcome of identity resolution
with expected kind `renewal` depends on the registry precisely through the
membership of the token's embedded `jti`: two registry states agreeing on
that membership give identical outcomes, and a live registry entry for the
`jti` of an unexpired renewal token makes resolution fail with the
revoked-token error. -/
theorem renewal_registry_dependence (db : List User) (bl bl2 : Blocklist)
    (now issuedAt ttl : Int) (username jti : String)
    (hmem : token_in_blocklist bl now jti = token_in_blocklist bl2 now jti) :
    get_current_user db bl now
        (create_token username none issuedAt ttl true jti) true
      = get_current_user db bl2 now
          (create_token username none issuedAt ttl true jti) true
    ∧ (¬ issuedAt + ttl < now → token_in_blocklist bl now jti = true →
        get_current_user db bl now
            (create_token username none issuedAt ttl true jti) true
          = Except.error TOKEN_IN_BLOCKLIST_EXCEPTION) := by
  unfold create_token
  rw [get_current_user_full_payload, get_current_user_full_payload, ← hmem]
  constructor
  · rfl
  · intro he hb
    simp [he, hb]

/-- Witness for C2 amended: two registries both containing the renewal
token's `jti` as a live entry give the same outcome, and that outcome is the
revoked-token rejection. -/
theorem renewal_registry_dependence_witness :
    (get_current_user [aliceUser] [(("j"), 200)] 100
        (create_token ("alice") none 0 604800 true ("j")) true
      = get_current_user [aliceUser] [(("j"), 300)] 100
          (create_token ("alice") none 0 604800 true ("j")) true)
    ∧ (¬ (0 : Int) + 604800 < 100 → token_in_blocklist [(("j"), 200)] 100 ("j") = true →
        get_current_user [aliceUser] [(("j"), 200)] 100
            (create_token ("alice") none 0 604800 true ("j")) true
          = Except.error TOKEN_IN_BLOCKLIST_EXCEPTION) := by
  exact renewal_registry_dependence [aliceUser] [(("j"), 200)] [(("j"), 300)]
    100 0 604800 ("alice") ("j") (by decide)

/-- C4: kind-mismatch rejection is symmetric.  Every verifying operation
goes through `validate_token`; a signed token whose `refresh` kind flag is
`true` is rejected when the operation expects an access token
(`is_refresh_token = false`), and one whose flag is `false` is rejected when
the operation expects a renewal token — in both cases with the invalid-token
error, whatever the registry state, clock, or other payload claims. -/
theorem kind_mismatch_rejected (bl : Blocklist) (now : Int) (p : Payload) :
    (p.refresh = some true →
      validate_token bl now (Jwt.signed p) false
        = Except.error INVALID_TOKEN_EXCEPTION)
    ∧ (p.refresh = some false →
      validate_token bl now (Jwt.signed p) true
        = Except.error INVALID_TOKEN_EXCEPTION) := by
  constructor <;> intro hp <;> unfold validate_token payload_rejected <;>
    simp [hp]

/-- Witness for C4: a renewal-flagged token is rejected by an access-kind
verification at a concrete state (and symmetrically). -/
theorem kind_mismatch_rejected_witness :
    (validate_token [] 0
        (Jwt.signed { sub := some ("alice"), email := none, exp := some 9000
                      refresh := some true, jti := some ("j") }) false
      = Except.error INVALID_TOKEN_EXCEPTION)
    ∧ (validate_token [] 0
        (Jwt.signed { sub := some ("alice"), email := none, exp := some 9000
                      refresh := some false, jti := some ("j") }) true
      = Except.error INVALID_TOKEN_EXCEPTION) := by
  constructor
  · exact (kind_mismatch_rejected [] 0
      { sub := some ("alice"), email := none, exp := some 9000
        refresh := some true, jti := some ("j") }).1 rfl
  · exact (kind_mismatch_rejected [] 0
      { sub := some ("alice"), email := none, exp := some 9000
        refresh := some false, jti := some ("j") }).2 rfl

/-- C6: the claim asserts every token-verification failure surfaces as one
and the same error class with no observable difference.  Counterexample: an
expired access token is rejected with the 401 `INVALID_TOKEN_EXCEPTION`
while a revoked (blocklisted) one is rejected with the 403
`TOKEN_IN_BLOCKLIST_EXCEPTION`; the two responses differ in status code and
message, so a caller can tell the revocation check apart. -/
theorem unified_error_counterexample :
    validate_token [] 100 (create_token ("alice") none 0 10 false ("j")) false
      = Except.error INVALID_TOKEN_EXCEPTION
    ∧ validate_token [(("j2"), 4000)] 100
        (create_token ("alice") none 50 3600 false ("j2")) false
      = Except.error TOKEN_IN_BLOCKLIST_EXCEPTION
    ∧ INVALID_TOKEN_EXCEPTION ≠ TOKEN_IN_BLOCKLIST_EXCEPTION
    ∧ INVALID_TOKEN_EXCEPTION.status_code
        ≠ TOKEN_IN_BLOCKLIST_EXCEPTION.status_code := by
  refine ⟨rfl, rfl, by decide, by decide⟩

/-- C6 amended: four of the verification failures — invalid signature,
malformed payload (a required claim missing), expired, and wrong kind — are
all normalized to the single 401 `INVALID_TOKEN_EXCEPTION`; a revoked token,
however, is rejected with the distinct 403 `TOKEN_IN_BLOCKLIST_EXCEPTION`,
so revocation is externally distinguishable from the other failures. -/
theorem verification_error_classes (bl : Blocklist) (now issuedAt ttl : Int)
    (sub jti : String) (em : Option String) (k : Bool) (p : Payload) :
    validate_token bl now Jwt.badSig k = Except.error INVALID_TOKEN_EXCEPTION
    ∧ (p.sub = none →
        validate_token bl now (Jwt.signed p) k
          = Except.error INVALID_TOKEN_EXCEPTION)
    ∧ (issuedAt + ttl < now →
        validate_token bl now (create_token sub em issuedAt ttl k jti) k
          = Except.error INVALID_TOKEN_EXCEPTION)
    ∧ validate_token bl now (create_token sub em issuedAt ttl (!k) jti) k
        = Except.error INVALID_TOKEN_EXCEPTION
    ∧ (¬ issuedAt + ttl < now → token_in_blocklist bl now jti = true →
        validate_token bl now (create_token sub em issuedAt ttl k jti) k
          = Except.error TOKEN_IN_BLOCKLIST_EXCEPTION)
    ∧ TOKEN_IN_BLOCKLIST_EXCEPTION ≠ INVALID_TOKEN_EXCEPTION := by
  refine ⟨rfl, ?_, ?_, ?_, ?_, by decide⟩
  · intro hp
    unfold validate_token payload_rejected
    simp [hp]
  · intro he
    unfold create_token
    rw [validate_token_full_payload]
    simp [he]
  · unfold create_token validate_token payload_rejected
    cases k <;> simp
  · intro he hb
    unfold create_token
    rw [validate_token_full_payload]
    simp [he, hb]

/-- Witness for C6 amended: each failure mode exercised at a concrete
state — bad signature, payload with no subject, expired token, renewal
token presented as access, and a blocklisted token. -/
theorem verification_error_classes_witness :
    validate_token [] 100 Jwt.badSig false
      = Except.error INVALID_TOKEN_EXCEPTION
    ∧ (validate_token [] 100
        (Jwt.signed { sub := none, email := none, exp := some 9000
                      refresh := some false, jti := some ("j") }) false
      = Except.error INVALID_TOKEN_EXCEPTION)
    ∧ (validate_token [] 100 (create_token ("alice") none 0 10 false ("j")) false
      = Except.error INVALID_TOKEN_EXCEPTION)
    ∧ (validate_token [] 100 (create_token ("alice") none 0 10 true ("j")) false
      = Except.error INVALID_TOKEN_EXCEPTION)
    ∧ (validate_token [(("j2"), 4000)] 100
        (create_token ("alice") none 50 3600 false ("j2")) false
      = Except.error TOKEN_IN_BLOCKLIST_EXCEPTION)
    ∧ TOKEN_IN_BLOCKLIST_EXCEPTION ≠ INVALID_TOKEN_EXCEPTION := by
  refine ⟨?_, ?_, ?_, ?_, ?_, ?_⟩
  · exact (verification_error_classes [] 100 0 10 ("alice") ("j") none false
      { sub := none, email := none, exp := some 9000
        refresh := some false, jti := some ("j") }).1
  · exact (verification_error_classes [] 100 0 10 ("alice") ("j") none false
      { sub := none, email := none, exp := some 9000
        refresh := some false, jti := some ("j") }).2.1 rfl
  · exact (verification_error_classes [] 100 0 10 ("alice") ("j") none false
      { sub := none, email := none, exp := some 9000
        refresh := some false, jti := some ("j") }).2.2.1 (by decide)
  · exact (verification_error_classes [] 100 0 10 ("alice") ("j") none true
      { sub := none, email := none, exp := some 9000
        refresh := some false, jti := some ("j") }).2.2.2.1
  · exact (verification_error_classes [(("j2"), 4000)] 100 50 3600 ("alice")
      ("j2") none false
      { sub := none, email := none, exp := some 9000
        refresh := some false, jti := some ("j") }).2.2.2.2.1
      (by decide) (by decide)
  · exact (verification_error_classes [] 100 0 10 ("alice") ("j") none false
      { sub := none, email := none, exp := some 9000
        refresh := some false, jti := some ("j") }).2.2.2.2.2

/-- C3: the claim says a successful `Logout(t)` writes a 3600-second
revocation entry and that every identity resolution of `t` before its
natural expiry then fails.  In the code logout never gets that far: after
the token validates, `add_jti_to_blocklist` calls `SET` with `value=None`,
which redis-py rejects client-side with `DataError`, so logging out a live
access token answers 500, no revocation entry is ever written, and the
token keeps resolving against the unchanged registry.  This theorem
evaluates the embedded routes at such a failing input: logging out a valid
access token at instant 10 yields the generic 500 rather than a success,
and the same token still resolves to its account at instant 20, against the
registry the failed logout left empty. -/
theorem logout_raises_and_token_survives :
    revoke_token [] 10
        (create_token ("alice") none 0
          (ACCESS_TOKEN_DEFAULT_LIFESPAN_MINUTES * 60) false ("jti-1"))
      = Except.error INTERNAL_SERVER_ERROR
    ∧ (revoke_token [] 10
        (create_token ("alice") none 0
          (ACCESS_TOKEN_DEFAULT_LIFESPAN_MINUTES * 60) false ("jti-1"))).isOk
      = false
    ∧ get_current_user [aliceUser] [] 20
        (create_token ("alice") none 0
          (ACCESS_TOKEN_DEFAULT_LIFESPAN_MINUTES * 60) false ("jti-1")) false
      = Except.ok aliceUser := by
  refine ⟨rfl, rfl, rfl⟩

/-- C10: the claim says a first `Logout(t)` succeeds and inserts `t`'s
identifier, after which a second `Logout(t)` fails with the revoked-token
error.  In the code the first logout already fails with the 500 `DataError`
raised by `add_jti_to_blocklist` and writes nothing, so the second logout
runs against the unchanged registry, passes validation again, and fails
with the same 500 — never with `TOKEN_IN_BLOCKLIST_EXCEPTION`.  This
theorem evaluates both logouts of one valid access token (instants 10 and
20; the registry starts empty and, the first call having written nothing,
is still empty at the second): both answer the generic 500, which differs
from the revoked-token response the claim names. -/
theorem second_logout_same_500 :
    revoke_token [] 10
        (create_token ("alice") none 0
          (ACCESS_TOKEN_DEFAULT_LIFESPAN_MINUTES * 60) false ("jti-2"))
      = Except.error INTERNAL_SERVER_ERROR
    ∧ revoke_token [] 20
        (create_token ("alice") none 0
          (ACCESS_TOKEN_DEFAULT_LIFESPAN_MINUTES * 60) false ("jti-2"))
      = Except.error INTERNAL_SERVER_ERROR
    ∧ INTERNAL_SERVER_ERROR ≠ TOKEN_IN_BLOCKLIST_EXCEPTION := by
  refine ⟨rfl, rfl, by decide⟩

/-- A registry state extended with a live entry for a different `jti` still
answers the membership query for this one negatively. -/
theorem token_in_blocklist_add_other (bl : Blocklist) (l now : Int)
    (ja jti : String) (hne : ja ≠ jti)
    (h : token_in_blocklist bl now jti = false) :
    token_in_blocklist (blocklist_with_entry bl l ja) now jti = false := by
  unfold token_in_blocklist blocklist_with_entry
  unfold token_in_blocklist at h
  simp only [List.any_cons, h, Bool.or_false]
  simp [hne]

/-- C5: Refresh on a valid renewal token (subject still registered, token
unexpired, its `jti` not in the registry) succeeds, returns a brand-new
access token for the renewal token's subject, and leaves the Revocation
Registry exactly as it was — no entry is inserted and the renewal token is
not rotated or invalidated.  Consequently (second conjunct) against any
registry state extended with a live entry for some other `jti` — e.g. the
entry a logout intends to write for an access token, whose fresh UUID
differs from the renewal token's — the very same renewal token still
refreshes successfully. -/
theorem refresh_frame_and_reuse (db : List User) (bl : Blocklist)
    (issuedAt now : Int) (username jti newJti : String) (u : User)
    (haccount : get_user db username = some u)
    (hexp : ¬ issuedAt + REFRESH_TOKEN_DEFAULT_LIFESPAN_HOURS * 3600 < now)
    (hmem : token_in_blocklist bl now jti = false) :
    refresh_access_token db bl now
        (create_token username none issuedAt
          (REFRESH_TOKEN_DEFAULT_LIFESPAN_HOURS * 3600) true jti) newJti
      = Except.ok
          (create_token u.username none now
            (ACCESS_TOKEN_DEFAULT_LIFESPAN_MINUTES * 60) false newJti, bl)
    ∧ (∀ (l : Int) (ja : String), ja ≠ jti →
        refresh_access_token db (blocklist_with_entry bl l ja) now
            (create_token username none issuedAt
              (REFRESH_TOKEN_DEFAULT_LIFESPAN_HOURS * 3600) true jti) newJti
          = Except.ok
              (create_token u.username none now
                (ACCESS_TOKEN_DEFAULT_LIFESPAN_MINUTES * 60) false newJti,
               blocklist_with_entry bl l ja)) := by
  constructor
  · unfold refresh_access_token create_token
    rw [get_current_user_full_payload]
    simp [hexp, hmem, haccount]
  · intro l ja hne
    have hmem2 := token_in_blocklist_add_other bl l now ja jti hne hmem
    unfold refresh_access_token create_token
    rw [get_current_user_full_payload]
    simp [hexp, hmem2, haccount]

/-- Witness for C5: a live renewal token refreshes against the empty
registry, and still does against a registry holding a live entry for any
different `jti`. -/
theorem refresh_frame_and_reuse_witness :
    (get_user [aliceUser] ("alice") = some aliceUser
    ∧ ¬ (0 : Int) + REFRESH_TOKEN_DEFAULT_LIFESPAN_HOURS * 3600 < 100
    ∧ token_in_blocklist [] 100 ("jr") = false)
    ∧ (refresh_access_token [aliceUser] [] 100
        (create_token ("alice") none 0
          (REFRESH_TOKEN_DEFAULT_LIFESPAN_HOURS * 3600) true ("jr")) ("jn")
      = Except.ok
          (create_token (aliceUser.username) none 100
            (ACCESS_TOKEN_DEFAULT_LIFESPAN_MINUTES * 60) false ("jn"), [])
    ∧ (∀ (l : Int) (ja : String), ja ≠ ("jr") →
        refresh_access_token [aliceUser] (blocklist_with_entry [] l ja) 100
            (create_token ("alice") none 0
              (REFRESH_TOKEN_DEFAULT_LIFESPAN_HOURS * 3600) true ("jr")) ("jn")
          = Except.ok
              (create_token (aliceUser.username) none 100
                (ACCESS_TOKEN_DEFAULT_LIFESPAN_MINUTES * 60) false ("jn"),
               blocklist_with_entry [] l ja))) := by
  refine ⟨⟨by decide, by decide, by decide⟩, ?_⟩
  exact refresh_frame_and_reuse [aliceUser] [] 0 100 ("alice") ("jr") ("jn")
    aliceUser (by decide) (by decide) (by decide)

/-- C7: the claim asserts RequestPasswordReset answers Ok for every email
address.  Counterexample: against a store with no accounts, the route
answers 404 Not Found with a message naming the email — it does not answer
Ok, and the response reveals that the address is unregistered. -/
theorem reset_link_unknown_email_counterexample :
    send_reset_password_link [] ("ghost@x.com")
      = Except.error { status_code := 404,
                       error := "User for email ghost@x.com does not exist." }
    ∧ (send_reset_password_link [] ("ghost@x.com")).isOk = false := by
  refine ⟨rfl, rfl⟩

/-- C7 amended: RequestPasswordReset answers 200 Ok when some account has
the given email and 404 Not Found (naming the email) when none does, so the
response does reveal whether the address is registered. -/
theorem reset_link_reveals_registration (db : List User) (email : String) :
    (get_user_by_email db email = none →
      send_reset_password_link db email
        = Except.error { status_code := 404,
                         error := "User for email " ++ email ++ " does not exist." })
    ∧ (∀ u : User, get_user_by_email db email = some u →
        send_reset_password_link db email
          = Except.ok ("Please check the provided email to reset your password")) := by
  constructor
  · intro h
    unfold send_reset_password_link
    simp [h]
  · intro u h
    unfold send_reset_password_link
    simp [h]

/-- Witness for C7 amended: a registered email gets Ok, an unknown one gets
the 404. -/
theorem reset_link_reveals_registration_witness :
    (send_reset_password_link [] ("ghost@x.com")
      = Except.error { status_code := 404,
                       error := "User for email ghost@x.com does not exist." })
    ∧ (send_reset_password_link [aliceUser] ("alice@x.com")
      = Except.ok ("Please check the provided email to reset your password")) := by
  constructor
  · exact (reset_link_reveals_registration [] ("ghost@x.com")).1 rfl
  · exact (reset_link_reveals_registration [aliceUser] ("alice@x.com")).2
      aliceUser (by decide)

/-- C8: the claim says VerifyEmail answers Ok or 404 Not Found on every
input, malformed link tokens included.  On a link token that fails
decoding, `decode_url_safe_token` returns no payload, and the route then
evaluates `token_data.get("email")` on `None`; the `AttributeError` is
caught by the blanket `except` and surfaces as the 500
`DECODING_ERROR_EXCEPTION` — not a 404.  This theorem evaluates the route at
the failing input. -/
theorem malformed_link_token_yields_500 :
    verify_user_account [aliceUser] LinkToken.badLink
      = Except.error DECODING_ERROR_EXCEPTION
    ∧ DECODING_ERROR_EXCEPTION.status_code = 500
    ∧ (verify_user_account [aliceUser] LinkToken.badLink).isOk = false := by
  refine ⟨rfl, rfl, rfl⟩

/-- C9: login fails with the very same 401 response whether the username
matches no account or the account exists and the password fails
verification, so the two failing runs are externally indistinguishable and
account existence cannot be inferred from the login response. -/
theorem login_failure_indistinguishable (pwverify : String → String → Bool)
    (db : List User) (u1 p1 u2 p2 : String) (now1 now2 : Int)
    (j1 j2 : String) (user : User)
    (h1 : get_user db u1 = none)
    (h2 : get_user db u2 = some user)
    (h3 : pwverify p2 user.hashed_password = false) :
    get_access_token pwverify db u1 p1 now1 j1
      = Except.error INCORRECT_CREDENTIALS_EXCEPTION
    ∧ get_access_token pwverify db u2 p2 now2 j2
      = Except.error INCORRECT_CREDENTIALS_EXCEPTION
    ∧ get_access_token pwverify db u1 p1 now1 j1
      = get_access_token pwverify db u2 p2 now2 j2 := by
  unfold get_access_token authenticate_user
  simp [h1, h2, h3]

/-- Witness for C9: with one stored account, an unknown username and a wrong
password for the known account produce the identical 401 response. -/
theorem login_failure_indistinguishable_witness :
    get_access_token (fun p h => p == h) [aliceUser] ("bob") ("pw1") 0 ("j1")
      = Except.error INCORRECT_CREDENTIALS_EXCEPTION
    ∧ get_access_token (fun p h => p == h) [aliceUser] ("alice") ("wrong") 5 ("j2")
      = Except.error INCORRECT_CREDENTIALS_EXCEPTION
    ∧ get_access_token (fun p h => p == h) [aliceUser] ("bob") ("pw1") 0 ("j1")
      = get_access_token (fun p h => p == h) [aliceUser] ("alice") ("wrong") 5 ("j2") := by
  exact login_failure_indistinguishable (fun p h => p == h) [aliceUser]
    ("bob") ("pw1") ("alice") ("wrong") 0 5 ("j1") ("j2") aliceUser
    (by decide) (by decide) (by decide)
